import Mathlib

/-!
Verification of the recruitment-workflow data model of the supbase-bff-tt
repository. The repository's substantive code is its SQL migrations (users,
events, attendance, votes, feedback, dues_payments, interviews), which carry
the uniqueness constraints, CHECK-based enumerations, deletion policies and
row-level-security policies this development embeds. The application-layer
operations named by the specification (castBallot, recordAttendance,
createEvent, createUser, getBallotsForVoter) are not implemented in the
repository; where a claim needs them they are modelled from the spec, with a
doc comment saying so, and their storage-level behaviour follows the SQL.

Conventions of the embedding: a table is a `List` of row structures; UUID
columns are `Nat`; nullable columns are `Option`; `TIMESTAMPTZ` is `Int`;
TEXT columns constrained by a CHECK enumeration are inductive types; an
insert returns `Except DbError`, mapping a CHECK violation to
`ValidationError` and a UNIQUE violation to `ConflictError`, the error
taxonomy of the spec's section 7.
-/

namespace Rush

/-- Error taxonomy (spec section 7). -/
inductive DbError
  | ValidationError
  | ConflictError
  | AuthorizationError
  | NotFoundError
  | InvalidStateError
deriving DecidableEq, Repr

/-- users.role: TEXT CHECK (role IN ('ADMIN', 'ACTIVE', 'PLEDGE', 'RUSHEE')). -/
inductive Role
  | ADMIN
  | ACTIVE
  | PLEDGE
  | RUSHEE
deriving DecidableEq, Repr

/-- users.candidate_stage: TEXT CHECK (nine stages), nullable. -/
inductive CandidateStage
  | INITIAL
  | FIRST_ROUND
  | SECOND_ROUND
  | THIRD_ROUND
  | BID_EXTENDED
  | BID_ACCEPTED
  | BID_DECLINED
  | NO_BID
  | DROPPED
deriving DecidableEq, Repr

/-- A row of the users table (migration 001 plus the candidate_stage column of
migration 008): supabase_id UNIQUE NOT NULL, email UNIQUE NOT NULL,
role NOT NULL, is_active BOOLEAN DEFAULT true. -/
structure UserRow where
  id : Nat
  supabase_id : Nat
  email : String
  role : Role
  candidate_stage : Option CandidateStage
  is_active : Bool
deriving DecidableEq, Repr

/-- votes.vote_type: TEXT CHECK (vote_type IN ('BID', 'NO_BID', 'ABSTAIN')). -/
inductive VoteType
  | BID
  | NO_BID
  | ABSTAIN
deriving DecidableEq, Repr

/-- A row of the votes table (migration 004): event_id nullable,
voter_id and candidate_id NOT NULL, voting_round nullable TEXT,
is_anonymous BOOLEAN DEFAULT true. -/
structure VoteRow where
  id : Nat
  event_id : Option Nat
  voter_id : Nat
  candidate_id : Nat
  vote_type : VoteType
  vote_value : Option Int
  is_anonymous : Bool
  voting_round : Option String
  notes : Option String
deriving DecidableEq, Repr

/-- votes.vote_value CHECK (vote_value >= 1 AND vote_value <= 10).
A NULL value satisfies a SQL CHECK constraint. -/
def voteValueOk (v : Option Int) : Bool :=
  match v with
  | none => true
  | some n => 1 ≤ n && n ≤ 10

/-- UNIQUE(voter_id, candidate_id, voting_round): two rows collide exactly when
all three key columns are equal and non-NULL. voter_id and candidate_id are
NOT NULL, so only voting_round can be NULL, and SQL uniqueness treats NULLs
as distinct: two rows whose voting_round is NULL never collide. -/
def voteKeyConflict (a b : VoteRow) : Bool :=
  a.voter_id == b.voter_id && a.candidate_id == b.candidate_id &&
    match a.voting_round, b.voting_round with
    | some r, some s => r == s
    | _, _ => false

/-- Row matches the concrete key (voter, candidate, some round). -/
def voteTripleMatch (vo ca : Nat) (r : String) (v : VoteRow) : Bool :=
  v.voter_id == vo && v.candidate_id == ca && v.voting_round == some r

/-- Number of rows holding the (voter, candidate, round) key, round non-NULL. -/
def voteTripleCount (db : List VoteRow) (vo ca : Nat) (r : String) : Nat :=
  db.countP (voteTripleMatch vo ca r)

/-- The votes-table uniqueness invariant: at most one row per
(voter, candidate, round) triple with a non-NULL round. -/
def votesUnique (db : List VoteRow) : Prop :=
  ∀ vo ca r, voteTripleCount db vo ca r ≤ 1

/-- INSERT INTO votes: the CHECK constraint rejects an out-of-range
vote_value (ValidationError); the UNIQUE constraint rejects a key collision
with an existing row (ConflictError); otherwise the row is appended. -/
def insertVote (db : List VoteRow) (r : VoteRow) : Except DbError (List VoteRow) :=
  if !voteValueOk r.vote_value then .error .ValidationError
  else if db.any (fun v => voteKeyConflict v r) then .error .ConflictError
  else .ok (db ++ [r])

/-- users lookup by primary key. -/
def findUser (users : List UserRow) (uid : Nat) : Option UserRow :=
  users.find? (fun u => u.id == uid)

/-- The vote row a fresh castBallot call builds: is_anonymous takes its
schema default true. -/
def castRowOf (newId vo ca : Nat) (round : Option String) (t : VoteType)
    (x : Option Int) (n : Option String) : VoteRow :=
  { id := newId, event_id := none, voter_id := vo, candidate_id := ca,
    vote_type := t, vote_value := x, is_anonymous := true,
    voting_round := round, notes := n }

/-- Update-in-place of the ballot holding the target's uniqueness key: only
vote_type, vote_value and notes change; the key columns stay. -/
def updateBallot (t : VoteType) (x : Option Int) (n : Option String)
    (target v : VoteRow) : VoteRow :=
  if voteKeyConflict v target then
    { v with vote_type := t, vote_value := x, notes := n }
  else v

/-- Modelled from the spec: `castBallot` (spec section 4.4) has no
implementation under src — only the votes-table schema exists. Role
validation (voter ACTIVE or ADMIN, candidate RUSHEE, otherwise
AuthorizationError), the vote_value range check, and the open-round
update-in-place of the caller's own existing ballot follow the spec's words;
the insert itself follows the SQL UNIQUE constraint of migration 004.
`roundOpen` is the external open/closed-round input of the spec. -/
def castBallot (users : List UserRow) (db : List VoteRow) (newId : Nat)
    (voterId candId : Nat) (round : Option String) (vtype : VoteType)
    (value : Option Int) (notes : Option String) (roundOpen : Bool) :
    Except DbError (List VoteRow) :=
  match findUser users voterId, findUser users candId with
  | some vu, some cu =>
    if vu.role = Role.ACTIVE ∨ vu.role = Role.ADMIN then
      if cu.role = Role.RUSHEE then
        if !voteValueOk value then .error .ValidationError
        else if db.any (fun v =>
            voteKeyConflict v (castRowOf newId voterId candId round vtype value notes)) then
          if roundOpen then
            .ok (db.map (updateBallot vtype value notes
              (castRowOf newId voterId candId round vtype value notes)))
          else .error .ConflictError
        else .ok (db ++ [castRowOf newId voterId candId round vtype value notes])
      else .error .AuthorizationError
    else .error .AuthorizationError
  | _, _ => .error .NotFoundError

/-! ## Events (migration 002) -/

/-- events.event_type CHECK enumeration. -/
inductive EventType
  | DINNER
  | SMOKER
  | INTERVIEW
  | SOCIAL
  | MEETING
  | OTHER
deriving DecidableEq, Repr

/-- A row of the events table: start_time NOT NULL, end_time nullable,
created_by nullable (ON DELETE SET NULL), is_active soft-delete flag.
The schema has no CHECK relating end_time to start_time. -/
structure EventRow where
  id : Nat
  title : String
  description : Option String
  event_type : EventType
  start_time : Int
  end_time : Option Int
  location : Option String
  is_mandatory : Bool
  is_voting_event : Bool
  max_capacity : Option Int
  created_by : Option Nat
  is_active : Bool
deriving DecidableEq, Repr

/-- end >= start whenever end_time is present. -/
def eventTimesOk (e : EventRow) : Prop :=
  ∀ et, e.end_time = some et → e.start_time ≤ et

/-- The spec's rejection condition for event creation: end_time is present
and earlier than start_time. -/
def endBeforeStart (e : EventRow) : Bool :=
  match e.end_time with
  | some et => et < e.start_time
  | none => false

/-- Modelled from the spec: event creation (spec section 4.2) has no
implementation under src, and the events schema carries no CHECK between
end_time and start_time; the spec says create fails ValidationError if
endTime < startTime. -/
def createEvent (db : List EventRow) (e : EventRow) : Except DbError (List EventRow) :=
  if endBeforeStart e then .error .ValidationError else .ok (db ++ [e])

/-! ## Attendance (migration 003) -/

/-- attendance.rsvp_status CHECK enumeration, nullable column. -/
inductive RsvpStatus
  | GOING
  | MAYBE
  | NOT_GOING
deriving DecidableEq, Repr

/-- attendance.status CHECK enumeration, NOT NULL DEFAULT 'PENDING'. -/
inductive AttendanceStatus
  | PENDING
  | PRESENT
  | ABSENT
  | EXCUSED
  | LATE
deriving DecidableEq, Repr

/-- A row of the attendance table: event_id and user_id NOT NULL (both
ON DELETE CASCADE), checked_in_by nullable (ON DELETE SET NULL). -/
structure AttendanceRow where
  id : Nat
  event_id : Nat
  user_id : Nat
  rsvp_status : Option RsvpStatus
  status : AttendanceStatus
  checked_in_at : Option Int
  checked_in_by : Option Nat
  notes : Option String
deriving DecidableEq, Repr

/-- UNIQUE(event_id, user_id): both columns NOT NULL, so two rows collide
exactly when both key columns agree. -/
def attendanceKeyConflict (a b : AttendanceRow) : Bool :=
  a.event_id == b.event_id && a.user_id == b.user_id

/-- Number of attendance rows for a concrete (event, user) pair. -/
def attendancePairCount (db : List AttendanceRow) (ev us : Nat) : Nat :=
  db.countP (fun a => a.event_id == ev && a.user_id == us)

/-- The attendance-table uniqueness invariant: at most one row per
(event, user) pair. -/
def attendanceUnique (db : List AttendanceRow) : Prop :=
  ∀ ev us, attendancePairCount db ev us ≤ 1

/-- INSERT INTO attendance: the UNIQUE(event_id, user_id) constraint rejects
a key collision with an existing row (ConflictError); otherwise the row is
appended. -/
def insertAttendance (db : List AttendanceRow) (r : AttendanceRow) :
    Except DbError (List AttendanceRow) :=
  if db.any (fun a => attendanceKeyConflict a r) then .error .ConflictError
  else .ok (db ++ [r])

/-- The attendance row a fresh recordAttendance call builds: the optional
columns take their defaults (rsvp_status NULL, check-in columns NULL). -/
def attendanceRowOf (newId ev us : Nat) (st : AttendanceStatus) : AttendanceRow :=
  { id := newId, event_id := ev, user_id := us, rsvp_status := none,
    status := st, checked_in_at := none, checked_in_by := none, notes := none }

/-- Modelled from the spec: `recordAttendance(event, user, status)` (spec
section 4.3) has no implementation under src — only the attendance schema
exists. Without an explicit update intent it is a plain insert, so a second
call for the same pair fails on the SQL UNIQUE constraint. -/
def recordAttendance (db : List AttendanceRow) (newId ev us : Nat)
    (st : AttendanceStatus) : Except DbError (List AttendanceRow) :=
  insertAttendance db (attendanceRowOf newId ev us st)

/-! ## Users insert (migration 001) -/

/-- INSERT INTO users: the UNIQUE constraints on supabase_id and on email
each reject a duplicate (ConflictError); otherwise the row is appended. A
rejected insert leaves the table — in particular the clashing existing
row — exactly as it was. -/
def insertUser (db : List UserRow) (r : UserRow) : Except DbError (List UserRow) :=
  if db.any (fun u => u.supabase_id == r.supabase_id || u.email == r.email) then
    .error .ConflictError
  else .ok (db ++ [r])

/-! ## Feedback (migration 005) -/

/-- A row of the feedback table: event_id nullable (SET NULL), author_id and
candidate_id NOT NULL (CASCADE), is_anonymous and is_private both
DEFAULT false. No uniqueness constraint. -/
structure FeedbackRow where
  id : Nat
  event_id : Option Nat
  author_id : Nat
  candidate_id : Nat
  rating : Option Int
  comment : Option String
  tags : List String
  is_anonymous : Bool
  is_private : Bool
deriving DecidableEq, Repr

/-- feedback.rating CHECK (rating >= 1 AND rating <= 5); NULL passes. -/
def feedbackRatingOk (v : Option Int) : Bool :=
  match v with
  | none => true
  | some n => 1 ≤ n && n ≤ 5

/-- INSERT INTO feedback: only the CHECK constraint can reject
(ValidationError) — the table has no uniqueness constraint. -/
def insertFeedback (db : List FeedbackRow) (r : FeedbackRow) :
    Except DbError (List FeedbackRow) :=
  if !feedbackRatingOk r.rating then .error .ValidationError
  else .ok (db ++ [r])

/-! ## Dues payments (migration 006) -/

/-- dues_payments.payment_type CHECK enumeration. -/
inductive PaymentType
  | INITIATION
  | SEMESTER
  | SOCIAL
  | FINE
  | OTHER
deriving DecidableEq, Repr

/-- dues_payments.payment_method CHECK enumeration, nullable column. -/
inductive PaymentMethod
  | CASH
  | VENMO
  | ZELLE
  | CHECK
  | BANK_TRANSFER
  | OTHER
deriving DecidableEq, Repr

/-- dues_payments.status CHECK enumeration, NOT NULL DEFAULT 'NOT_PAID'. -/
inductive DuesStatus
  | PAID
  | PARTIAL
  | NOT_PAID
  | OVERDUE
  | WAIVED
deriving DecidableEq, Repr

/-- A row of the dues_payments table: user_id NOT NULL (CASCADE),
recorded_by nullable (SET NULL), amount DECIMAL(10,2) CHECK (amount >= 0). -/
structure DuesRow where
  id : Nat
  user_id : Nat
  amount : Rat
  payment_type : PaymentType
  payment_method : Option PaymentMethod
  status : DuesStatus
  due_date : Int
  paid_at : Option Int
  semester : Option String
  reference_number : Option String
  notes : Option String
  recorded_by : Option Nat
deriving DecidableEq, Repr

/-! ## Interviews (migration 007) -/

/-- interviews.recommendation CHECK enumeration, nullable column. -/
inductive Recommendation
  | STRONG_BID
  | BID
  | NEUTRAL
  | NO_BID
  | STRONG_NO_BID
deriving DecidableEq, Repr

/-- One entry of interviews.questions_and_answers JSONB:
a question/answer pair. -/
structure QA where
  question : String
  answer : String
deriving DecidableEq, Repr

/-- A row of the interviews table: event_id nullable (SET NULL),
interviewer_id and candidate_id NOT NULL (CASCADE). -/
structure InterviewRow where
  id : Nat
  event_id : Option Nat
  interviewer_id : Nat
  candidate_id : Nat
  interview_date : Int
  questions_and_answers : Option (List QA)
  notes : Option String
  overall_rating : Option Int
  recommendation : Option Recommendation
  strengths : List String
  concerns : List String
  is_complete : Bool
deriving DecidableEq, Repr

/-- interviews.overall_rating CHECK (overall_rating >= 1 AND
overall_rating <= 5); NULL passes. -/
def interviewRatingOk (v : Option Int) : Bool :=
  match v with
  | none => true
  | some n => 1 ≤ n && n ≤ 5

/-- INSERT INTO interviews: only the CHECK constraint on overall_rating can
reject numerically (ValidationError) — no uniqueness constraint. -/
def insertInterview (db : List InterviewRow) (r : InterviewRow) :
    Except DbError (List InterviewRow) :=
  if !interviewRatingOk r.overall_rating then .error .ValidationError
  else .ok (db ++ [r])

/-! ## Vote read visibility (RLS policies of migration 004) -/

/-- RLS policy "Users can view own votes": the row passes when its voter_id
is among the ids of user rows whose supabase_id is the caller's auth uid. -/
def ownVotePolicy (users : List UserRow) (authUid : Nat) (v : VoteRow) : Bool :=
  users.any (fun u => u.supabase_id == authUid && u.id == v.voter_id)

/-- RLS policy "Admins can view all votes": the row passes when some user
row with the caller's auth uid has role ADMIN and is_active = true. -/
def adminVotePolicy (users : List UserRow) (authUid : Nat) : Bool :=
  users.any (fun u => u.supabase_id == authUid && u.role == Role.ADMIN && u.is_active)

/-- Permissive SELECT policies are disjoined: a votes row is visible to the
caller when either policy passes. -/
def voteVisible (users : List UserRow) (authUid : Nat) (v : VoteRow) : Bool :=
  ownVotePolicy users authUid v || adminVotePolicy users authUid

/-- The set of votes rows a SELECT by this caller can return. -/
def visibleVotes (users : List UserRow) (authUid : Nat) (db : List VoteRow) :
    List VoteRow :=
  db.filter (voteVisible users authUid)

/-- Modelled from the spec: `getBallotsForVoter(voter)` (spec section 4.4)
has no implementation under src; the spec says it returns only that voter's
own ballots. -/
def getBallotsForVoter (db : List VoteRow) (voterId : Nat) : List VoteRow :=
  db.filter (fun v => v.voter_id == voterId)

/-! ## Whole-database deletion policies -/

/-- The seven tables of the schema. -/
structure Db where
  users : List UserRow
  events : List EventRow
  attendance : List AttendanceRow
  votes : List VoteRow
  feedback : List FeedbackRow
  dues : List DuesRow
  interviews : List InterviewRow
deriving Repr

/-- DELETE FROM users WHERE id = uid, applying the schema's ON DELETE
policies: CASCADE removes the rows owned by the user (votes as voter or
candidate, feedback as author or candidate, interviews as interviewer or
candidate, attendance as attendee, dues_payments as payer); SET NULL clears
the attributional references (events.created_by, attendance.checked_in_by,
dues_payments.recorded_by) while keeping those rows. -/
def deleteUser (db : Db) (uid : Nat) : Db :=
  { users := db.users.filter (fun u => u.id != uid),
    events := db.events.map (fun e =>
      if e.created_by == some uid then { e with created_by := none } else e),
    attendance := (db.attendance.filter (fun a => a.user_id != uid)).map (fun a =>
      if a.checked_in_by == some uid then { a with checked_in_by := none } else a),
    votes := db.votes.filter (fun v =>
      v.voter_id != uid && v.candidate_id != uid),
    feedback := db.feedback.filter (fun f =>
      f.author_id != uid && f.candidate_id != uid),
    dues := (db.dues.filter (fun d => d.user_id != uid)).map (fun d =>
      if d.recorded_by == some uid then { d with recorded_by := none } else d),
    interviews := db.interviews.filter (fun i =>
      i.interviewer_id != uid && i.candidate_id != uid) }

/-- DELETE FROM events WHERE id = eid, applying the schema's ON DELETE
policies: SET NULL clears event_id on votes, feedback and interviews;
CASCADE removes the event's attendance rows. -/
def deleteEvent (db : Db) (eid : Nat) : Db :=
  { db with
    events := db.events.filter (fun e => e.id != eid),
    attendance := db.attendance.filter (fun a => a.event_id != eid),
    votes := db.votes.map (fun v =>
      if v.event_id == some eid then { v with event_id := none } else v),
    feedback := db.feedback.map (fun f =>
      if f.event_id == some eid then { f with event_id := none } else f),
    interviews := db.interviews.map (fun i =>
      if i.event_id == some eid then { i with event_id := none } else i) }

/-! ## Schema defaults -/

/-- votes.is_anonymous BOOLEAN DEFAULT true (migration 004). -/
def votesIsAnonymousDefault : Bool := true

/-- feedback.is_anonymous BOOLEAN DEFAULT false (migration 005). -/
def feedbackIsAnonymousDefault : Bool := false

/-- feedback.is_private BOOLEAN DEFAULT false (migration 005). -/
def feedbackIsPrivateDefault : Bool := false

/-- An INSERT that omits a nullable-with-default boolean column stores the
column's schema default; an INSERT that gives a value stores the value. -/
def applyBoolDefault (given : Option Bool) (dflt : Bool) : Bool :=
  given.getD dflt

/-- Build a votes row as an INSERT naming every column except is_anonymous
(when `anon` is none) would: the flag falls back to the schema default. -/
def mkVoteRow (newId : Nat) (eid : Option Nat) (vo ca : Nat) (t : VoteType)
    (x : Option Int) (anon : Option Bool) (round : Option String)
    (n : Option String) : VoteRow :=
  { id := newId, event_id := eid, voter_id := vo, candidate_id := ca,
    vote_type := t, vote_value := x,
    is_anonymous := applyBoolDefault anon votesIsAnonymousDefault,
    voting_round := round, notes := n }

/-- Build a feedback row, with is_anonymous and is_private falling back to
their schema defaults when the INSERT omits them. -/
def mkFeedbackRow (newId : Nat) (eid : Option Nat) (au ca : Nat)
    (rating : Option Int) (comment : Option String) (tags : List String)
    (anon priv : Option Bool) : FeedbackRow :=
  { id := newId, event_id := eid, author_id := au, candidate_id := ca,
    rating := rating, comment := comment, tags := tags,
    is_anonymous := applyBoolDefault anon feedbackIsAnonymousDefault,
    is_private := applyBoolDefault priv feedbackIsPrivateDefault }

/-! ## Concrete rows used by the closed theorems and witnesses -/

/-- A concrete vote row with a NULL voting_round. -/
def nullRoundVoteA : VoteRow :=
  { id := 1, event_id := none, voter_id := 7, candidate_id := 8,
    vote_type := VoteType.BID, vote_value := some 9, is_anonymous := true,
    voting_round := none, notes := none }

/-- A second vote row for the same (voter, candidate) pair, also with a NULL
voting_round. -/
def nullRoundVoteB : VoteRow :=
  { id := 2, event_id := none, voter_id := 7, candidate_id := 8,
    vote_type := VoteType.NO_BID, vote_value := none, is_anonymous := true,
    voting_round := none, notes := none }

/-- A concrete event whose end_time (5) precedes its start_time (10). -/
def badTimesEvent : EventRow :=
  { id := 1, title := "mixer", description := none,
    event_type := EventType.SOCIAL, start_time := 10, end_time := some 5,
    location := none, is_mandatory := false, is_voting_event := false,
    max_capacity := none, created_by := none, is_active := true }

/-- A concrete PLEDGE member, not permitted to vote. -/
def pledgeVoter : UserRow :=
  { id := 1, supabase_id := 100, email := "p@x.com", role := Role.PLEDGE,
    candidate_stage := none, is_active := true }

/-- A concrete RUSHEE candidate. -/
def rusheeCandidate : UserRow :=
  { id := 2, supabase_id := 200, email := "c@x.com", role := Role.RUSHEE,
    candidate_stage := none, is_active := true }

/-- A concrete ACTIVE (non-admin) caller. -/
def activeReader : UserRow :=
  { id := 1, supabase_id := 100, email := "r@x.com", role := Role.ACTIVE,
    candidate_stage := none, is_active := true }

/-! ## Theorems -/

/-- C4: for every (event, user) pair at most one attendance row exists: a
first recordAttendance call appends a row and preserves the uniqueness
invariant, every pre-existing row survives unchanged, and a second
recordAttendance call for the same pair — there being no update intent in
the operation — fails with ConflictError (an error returns no new table
state, so the existing row is untouched). -/
theorem recordAttendance_pair_unique (db db1 : List AttendanceRow)
    (id1 id2 ev us : Nat) (st st2 : AttendanceStatus)
    (hu : attendanceUnique db)
    (hok : recordAttendance db id1 ev us st = .ok db1) :
    attendanceUnique db1 ∧ (∀ a ∈ db, a ∈ db1) ∧
    recordAttendance db1 id2 ev us st2 = .error .ConflictError := by
  unfold recordAttendance insertAttendance at hok ⊢
  split at hok
  · exact absurd hok (by simp)
  · next hnc =>
    rw [Except.ok.injEq] at hok
    subst hok
    simp only [List.any_eq_true, not_exists, not_and] at hnc
    refine ⟨?_, ?_, ?_⟩
    · intro ev2 us2
      unfold attendancePairCount at *
      rw [List.countP_append]
      by_cases hmatch : ev2 = ev ∧ us2 = us
      · obtain ⟨rfl, rfl⟩ := hmatch
        have hzero : db.countP (fun a => a.event_id == ev2 && a.user_id == us2) = 0 := by
          rw [List.countP_eq_zero]
          intro a ha
          have := hnc a ha
          simpa [attendanceKeyConflict, attendanceRowOf] using this
        rw [hzero, Nat.zero_add, List.countP_cons, List.countP_nil]
        split <;> simp
      · have hone : List.countP (fun a => a.event_id == ev2 && a.user_id == us2)
            [attendanceRowOf id1 ev us st] = 0 := by
          rw [List.countP_eq_zero]
          intro a ha
          simp only [List.mem_singleton] at ha
          subst ha
          simp only [attendanceRowOf, Bool.and_eq_true, beq_iff_eq]
          rintro ⟨h1, h2⟩
          exact hmatch ⟨h1.symm, h2.symm⟩
        rw [hone]
        simpa using hu ev2 us2
    · intro a ha
      exact List.mem_append_left _ ha
    · have hin : (db ++ [attendanceRowOf id1 ev us st]).any
          (fun a => attendanceKeyConflict a (attendanceRowOf id2 ev us st2)) = true := by
        rw [List.any_eq_true]
        refine ⟨_, List.mem_append_right _ (List.mem_singleton_self _), ?_⟩
        simp [attendanceKeyConflict, attendanceRowOf]
      rw [if_pos hin]

/-- C4 witness: a concrete first call succeeds and the repeat call for the
same (event, user) pair fails with ConflictError. -/
theorem recordAttendance_pair_unique_witness :
    attendanceUnique [] ∧
    (attendanceUnique [attendanceRowOf 1 10 20 AttendanceStatus.PRESENT] ∧
     (∀ a ∈ ([] : List AttendanceRow),
        a ∈ [attendanceRowOf 1 10 20 AttendanceStatus.PRESENT]) ∧
     recordAttendance [attendanceRowOf 1 10 20 AttendanceStatus.PRESENT] 2 10 20
       AttendanceStatus.LATE = .error .ConflictError) :=
  ⟨fun _ _ => by simp [attendancePairCount],
   recordAttendance_pair_unique [] _ 1 2 10 20
     AttendanceStatus.PRESENT AttendanceStatus.LATE
     (fun _ _ => by simp [attendancePairCount]) rfl⟩

/-- C5: inserting a user whose email or supabase_id duplicates an existing
row's fails with ConflictError (leaving the table unchanged), and a
successful insert implies no existing row shared either value. -/
theorem insertUser_unique (db : List UserRow) (r u : UserRow)
    (hu : u ∈ db) (hdup : u.email = r.email ∨ u.supabase_id = r.supabase_id) :
    insertUser db r = .error .ConflictError ∧
    (∀ db1, insertUser db r = .ok db1 → False) := by
  have hany : db.any (fun x => x.supabase_id == r.supabase_id || x.email == r.email) = true := by
    rw [List.any_eq_true]
    refine ⟨u, hu, ?_⟩
    rcases hdup with h | h <;> simp [h]
  constructor
  · unfold insertUser
    rw [if_pos hany]
  · intro db1 h1
    unfold insertUser at h1
    rw [if_pos hany] at h1
    exact absurd h1 (by simp)

/-- C5 witness: a concrete duplicate-email insert fails with ConflictError. -/
theorem insertUser_unique_witness :
    insertUser
      [{ id := 1, supabase_id := 100, email := "a@x.com", role := Role.ACTIVE,
         candidate_stage := none, is_active := true }]
      { id := 2, supabase_id := 200, email := "a@x.com", role := Role.RUSHEE,
        candidate_stage := none, is_active := true } = .error .ConflictError ∧
    (∀ db1, insertUser
      [{ id := 1, supabase_id := 100, email := "a@x.com", role := Role.ACTIVE,
         candidate_stage := none, is_active := true }]
      { id := 2, supabase_id := 200, email := "a@x.com", role := Role.RUSHEE,
        candidate_stage := none, is_active := true } = .ok db1 → False) :=
  insertUser_unique _ _ _ (List.mem_singleton_self _) (Or.inl rfl)

/-- C9: when voting_round is NULL the uniqueness key does not bind — the
schema permits a NULL voting_round and SQL uniqueness treats NULLs as
distinct, so two rows with the same (voter, candidate) and absent round are
both inserted successfully. -/
theorem null_round_duplicates_allowed :
    nullRoundVoteA.voter_id = nullRoundVoteB.voter_id ∧
    nullRoundVoteA.candidate_id = nullRoundVoteB.candidate_id ∧
    nullRoundVoteA.voting_round = none ∧
    nullRoundVoteB.voting_round = none ∧
    insertVote [] nullRoundVoteA = .ok [nullRoundVoteA] ∧
    insertVote [nullRoundVoteA] nullRoundVoteB =
      .ok [nullRoundVoteA, nullRoundVoteB] :=
  ⟨rfl, rfl, rfl, rfl, rfl, rfl⟩

/-- C10: a vote row inserted without specifying is_anonymous stores
is_anonymous = true, while a feedback row inserted without specifying
is_anonymous or is_private stores both flags false — the two stores'
anonymity defaults differ. -/
theorem anonymity_defaults_differ (newId : Nat) (eid : Option Nat)
    (vo ca au : Nat) (t : VoteType) (x r : Option Int)
    (round n c : Option String) (tags : List String) :
    (mkVoteRow newId eid vo ca t x none round n).is_anonymous = true ∧
    (mkFeedbackRow newId eid au ca r c tags none none).is_anonymous = false ∧
    (mkFeedbackRow newId eid au ca r c tags none none).is_private = false ∧
    votesIsAnonymousDefault ≠ feedbackIsAnonymousDefault :=
  ⟨rfl, rfl, rfl, by decide⟩

/-- C6: a write carrying vote_value outside [1,10], or a feedback rating
outside [1,5], or an interview overall_rating outside [1,5], fails the CHECK
constraint with ValidationError (no row is appended — the error carries no
new table state), and in-range values pass the CHECK: feedback and
interview inserts then succeed outright, and a vote insert can only fail on
the uniqueness constraint, never with ValidationError. -/
theorem rating_ranges_enforced
    (vdb : List VoteRow) (v : VoteRow) (fdb : List FeedbackRow)
    (f : FeedbackRow) (idb : List InterviewRow) (i : InterviewRow)
    (n m k : Int)
    (hv : v.vote_value = some n) (hn : n < 1 ∨ 10 < n)
    (hf : f.rating = some m) (hm : m < 1 ∨ 5 < m)
    (hi : i.overall_rating = some k) (hk : k < 1 ∨ 5 < k) :
    insertVote vdb v = .error .ValidationError ∧
    insertFeedback fdb f = .error .ValidationError ∧
    insertInterview idb i = .error .ValidationError ∧
    (∀ v2 : VoteRow, voteValueOk v2.vote_value = true →
        insertVote vdb v2 ≠ .error .ValidationError) ∧
    (∀ f2 : FeedbackRow, feedbackRatingOk f2.rating = true →
        insertFeedback fdb f2 = .ok (fdb ++ [f2])) ∧
    (∀ i2 : InterviewRow, interviewRatingOk i2.overall_rating = true →
        insertInterview idb i2 = .ok (idb ++ [i2])) := by
  have hvf : voteValueOk v.vote_value = false := by
    rw [hv]; simp only [voteValueOk, Bool.and_eq_false_iff,
      decide_eq_false_iff_not, not_le]
    omega
  have hff : feedbackRatingOk f.rating = false := by
    rw [hf]; simp only [feedbackRatingOk, Bool.and_eq_false_iff,
      decide_eq_false_iff_not, not_le]
    omega
  have hif : interviewRatingOk i.overall_rating = false := by
    rw [hi]; simp only [interviewRatingOk, Bool.and_eq_false_iff,
      decide_eq_false_iff_not, not_le]
    omega
  refine ⟨?_, ?_, ?_, ?_, ?_, ?_⟩
  · unfold insertVote; rw [hvf]; simp
  · unfold insertFeedback; rw [hff]; simp
  · unfold insertInterview; rw [hif]; simp
  · intro v2 h2
    unfold insertVote
    rw [h2]
    simp only [Bool.not_true, Bool.false_eq_true, if_false]
    split <;> simp
  · intro f2 h2
    unfold insertFeedback
    rw [h2]
    simp
  · intro i2 h2
    unfold insertInterview
    rw [h2]
    simp

/-- C6 witness: concrete out-of-range writes (vote_value 11, rating 7,
overall_rating 0) fail with ValidationError, and the in-range acceptance
clauses hold on the same empty tables. -/
theorem rating_ranges_enforced_witness :
    insertVote [] { nullRoundVoteA with vote_value := some 11 } =
      .error .ValidationError ∧
    insertFeedback [] (mkFeedbackRow 1 none 3 4 (some 7) none [] none none) =
      .error .ValidationError ∧
    insertInterview []
      { id := 1, event_id := none, interviewer_id := 3, candidate_id := 4,
        interview_date := 0, questions_and_answers := none, notes := none,
        overall_rating := some 0, recommendation := none, strengths := [],
        concerns := [], is_complete := true } = .error .ValidationError ∧
    (∀ v2 : VoteRow, voteValueOk v2.vote_value = true →
        insertVote [] v2 ≠ .error .ValidationError) ∧
    (∀ f2 : FeedbackRow, feedbackRatingOk f2.rating = true →
        insertFeedback [] f2 = .ok ([] ++ [f2])) ∧
    (∀ i2 : InterviewRow, interviewRatingOk i2.overall_rating = true →
        insertInterview [] i2 = .ok ([] ++ [i2])) :=
  rating_ranges_enforced [] _ [] _ [] _ 11 7 0 rfl (Or.inr (by norm_num))
    rfl (Or.inr (by norm_num)) rfl (Or.inl (by norm_num))

/-- C7: creating an event whose end_time is present and earlier than its
start_time fails with ValidationError, and every event stored through
createEvent satisfies end_time >= start_time whenever end_time is present. -/
theorem createEvent_time_check (db : List EventRow) (e : EventRow)
    (hinv : ∀ x ∈ db, eventTimesOk x) :
    (∀ et, e.end_time = some et → et < e.start_time →
        createEvent db e = .error .ValidationError) ∧
    (∀ db1, createEvent db e = .ok db1 → ∀ x ∈ db1, eventTimesOk x) := by
  constructor
  · intro et h hlt
    have hb : endBeforeStart e = true := by
      unfold endBeforeStart
      rw [h]
      simpa using hlt
    unfold createEvent
    rw [if_pos hb]
  · intro db1 hok x hx
    unfold createEvent at hok
    split at hok
    · exact absurd hok (by simp)
    · next hb =>
      rw [Except.ok.injEq] at hok
      subst hok
      rcases List.mem_append.mp hx with h | h
      · exact hinv x h
      · simp only [List.mem_singleton] at h
        subst h
        intro et' h'
        by_contra hlt
        apply hb
        unfold endBeforeStart
        rw [h']
        simp only [decide_eq_true_eq]
        omega

/-- C7 witness: on an empty catalog, the concrete event whose end_time is
before its start_time is rejected with ValidationError, and any successful
create leaves only time-consistent rows. -/
theorem createEvent_time_check_witness :
    (∀ et, badTimesEvent.end_time = some et →
        et < badTimesEvent.start_time →
        createEvent [] badTimesEvent = .error .ValidationError) ∧
    (∀ db1, createEvent [] badTimesEvent = .ok db1 →
        ∀ x ∈ db1, eventTimesOk x) :=
  createEvent_time_check [] badTimesEvent
    (fun x hx => absurd hx (List.not_mem_nil x))

/-- updateBallot never changes the uniqueness-key columns. -/
theorem updateBallot_keys (t : VoteType) (x : Option Int) (n : Option String)
    (w v : VoteRow) :
    (updateBallot t x n w v).voter_id = v.voter_id ∧
    (updateBallot t x n w v).candidate_id = v.candidate_id ∧
    (updateBallot t x n w v).voting_round = v.voting_round := by
  unfold updateBallot
  split <;> exact ⟨rfl, rfl, rfl⟩

/-- A row collides with a fresh cast row keyed (vo, ca, some r) exactly when
it matches that triple. -/
theorem voteKeyConflict_castRow (v : VoteRow) (newId vo ca : Nat) (r : String)
    (t : VoteType) (x : Option Int) (n : Option String) :
    voteKeyConflict v (castRowOf newId vo ca (some r) t x n) =
      voteTripleMatch vo ca r v := by
  unfold voteKeyConflict castRowOf voteTripleMatch
  cases v.voting_round <;> simp

/-- Elimination principle for a successful castBallot: the lookups and role
checks passed, the value was in range, and the result is either a plain
insert with no key collision or an open-round update-in-place. -/
theorem castBallot_ok_elim (users : List UserRow) (db db1 : List VoteRow)
    (newId vo ca : Nat) (round : Option String) (t : VoteType)
    (x : Option Int) (n : Option String) (op : Bool)
    (hok : castBallot users db newId vo ca round t x n op = .ok db1) :
    ∃ vu cu, findUser users vo = some vu ∧ findUser users ca = some cu ∧
      (vu.role = Role.ACTIVE ∨ vu.role = Role.ADMIN) ∧
      cu.role = Role.RUSHEE ∧ voteValueOk x = true ∧
      ((db1 = db ++ [castRowOf newId vo ca round t x n] ∧
        ∀ v ∈ db, voteKeyConflict v (castRowOf newId vo ca round t x n) = false) ∨
       (op = true ∧
        db1 = db.map (updateBallot t x n (castRowOf newId vo ca round t x n)) ∧
        ∃ v ∈ db, voteKeyConflict v (castRowOf newId vo ca round t x n) = true)) := by
  unfold castBallot at hok
  cases hfv : findUser users vo with
  | none => rw [hfv] at hok; exact absurd hok (by simp)
  | some vu =>
  cases hfc : findUser users ca with
  | none => rw [hfv, hfc] at hok; exact absurd hok (by simp)
  | some cu =>
  rw [hfv, hfc] at hok
  simp only [] at hok
  refine ⟨vu, cu, rfl, rfl, ?_⟩
  by_cases h1 : vu.role = Role.ACTIVE ∨ vu.role = Role.ADMIN
  case neg => rw [if_neg h1] at hok; exact absurd hok (by simp)
  rw [if_pos h1] at hok
  by_cases h2 : cu.role = Role.RUSHEE
  case neg => rw [if_neg h2] at hok; exact absurd hok (by simp)
  rw [if_pos h2] at hok
  cases hval : voteValueOk x with
  | false => rw [hval] at hok; simp at hok
  | true =>
  rw [hval] at hok
  simp only [Bool.not_true, Bool.false_eq_true, if_false] at hok
  refine ⟨h1, h2, rfl, ?_⟩
  cases hany : db.any
      (fun v => voteKeyConflict v (castRowOf newId vo ca round t x n)) with
  | false =>
    rw [hany] at hok
    simp only [Bool.false_eq_true, if_false, Except.ok.injEq] at hok
    refine Or.inl ⟨hok.symm, ?_⟩
    intro v hv
    have := List.any_eq_false.mp hany v hv
    revert this
    cases voteKeyConflict v (castRowOf newId vo ca round t x n) <;> simp
  | true =>
    rw [hany] at hok
    simp only [if_true] at hok
    cases hop : op with
    | false =>
      rw [hop] at hok
      simp at hok
    | true =>
      rw [hop] at hok
      simp only [if_true, Except.ok.injEq] at hok
      refine Or.inr ⟨rfl, hok.symm, ?_⟩
      rw [List.any_eq_true] at hany
      obtain ⟨v, hv, hc⟩ := hany
      exact ⟨v, hv, hc⟩

/-- A successful castBallot preserves the votes-table uniqueness
invariant. -/
theorem castBallot_preserves_unique (users : List UserRow)
    (db db1 : List VoteRow) (newId vo ca : Nat) (round : Option String)
    (t : VoteType) (x : Option Int) (n : Option String) (op : Bool)
    (hu : votesUnique db)
    (hok : castBallot users db newId vo ca round t x n op = .ok db1) :
    votesUnique db1 := by
  obtain ⟨vu, cu, hfv, hfc, hrv, hrc, hvx, hcase⟩ :=
    castBallot_ok_elim users db db1 newId vo ca round t x n op hok
  rcases hcase with ⟨rfl, hnc⟩ | ⟨hop, rfl, hsome⟩
  · intro vo2 ca2 r2
    unfold voteTripleCount
    rw [List.countP_append]
    by_cases hm : voteTripleMatch vo2 ca2 r2 (castRowOf newId vo ca round t x n) = true
    · have hkey : vo2 = vo ∧ ca2 = ca ∧ round = some r2 := by
        revert hm
        unfold voteTripleMatch castRowOf
        simp only [Bool.and_eq_true, beq_iff_eq]
        rintro ⟨⟨hb1, hb2⟩, hb3⟩
        exact ⟨hb1.symm, hb2.symm, hb3⟩
      obtain ⟨rfl, rfl, hr⟩ := hkey
      have hzero : db.countP (voteTripleMatch vo2 ca2 r2) = 0 := by
        rw [List.countP_eq_zero]
        intro v hv hvm
        have hconf : voteKeyConflict v (castRowOf newId vo2 ca2 round t x n) = true := by
          rw [hr, voteKeyConflict_castRow]
          exact hvm
        rw [hnc v hv] at hconf
        exact absurd hconf (by simp)
      rw [hzero, Nat.zero_add, List.countP_cons, List.countP_nil]
      split <;> simp
    · rw [List.countP_cons, List.countP_nil]
      rw [Bool.not_eq_true] at hm
      rw [hm]
      simpa using hu vo2 ca2 r2
  · intro vo2 ca2 r2
    unfold voteTripleCount
    rw [List.countP_map]
    have heq : db.countP
        ((voteTripleMatch vo2 ca2 r2) ∘
          (updateBallot t x n (castRowOf newId vo ca round t x n))) =
        db.countP (voteTripleMatch vo2 ca2 r2) := by
      apply List.countP_congr
      intro v _
      have hk := updateBallot_keys t x n (castRowOf newId vo ca round t x n) v
      constructor <;> intro hh <;>
        simpa only [Function.comp, voteTripleMatch, hk.1, hk.2.1, hk.2.2] using hh
    rw [heq]
    exact hu vo2 ca2 r2

/-- After a successful castBallot for (vo, ca, some r), some stored row
holds that triple. -/
theorem castBallot_ok_triple (users : List UserRow) (db db1 : List VoteRow)
    (newId vo ca : Nat) (r : String) (t : VoteType) (x : Option Int)
    (n : Option String) (op : Bool)
    (hok : castBallot users db newId vo ca (some r) t x n op = .ok db1) :
    ∃ v ∈ db1, voteTripleMatch vo ca r v = true := by
  obtain ⟨vu, cu, hfv, hfc, hrv, hrc, hvx, hcase⟩ :=
    castBallot_ok_elim users db db1 newId vo ca (some r) t x n op hok
  rcases hcase with ⟨rfl, hnc⟩ | ⟨hop, rfl, ⟨w, hw, hconf⟩⟩
  · refine ⟨castRowOf newId vo ca (some r) t x n,
      List.mem_append_right _ (List.mem_singleton_self _), ?_⟩
    unfold voteTripleMatch castRowOf
    simp
  · refine ⟨updateBallot t x n (castRowOf newId vo ca (some r) t x n) w,
      List.mem_map_of_mem _ hw, ?_⟩
    have hk := updateBallot_keys t x n (castRowOf newId vo ca (some r) t x n) w
    rw [voteKeyConflict_castRow] at hconf
    unfold voteTripleMatch at hconf ⊢
    rw [hk.1, hk.2.1, hk.2.2]
    exact hconf

/-- C1: at most one vote row exists per (voter, candidate, round) triple
with a non-absent round label: a successful castBallot — whether a fresh
insert or an explicit open-round update of the caller's own ballot —
preserves the uniqueness invariant, and a second insert attempt for the
same triple once the round is closed fails with ConflictError rather than
overwriting (an error returns no new table state). -/
theorem castBallot_triple_unique (users : List UserRow)
    (db db1 : List VoteRow) (id1 id2 vo ca : Nat) (r : String)
    (t t2 : VoteType) (x x2 : Option Int) (n n2 : Option String) (op : Bool)
    (hu : votesUnique db)
    (hok : castBallot users db id1 vo ca (some r) t x n op = .ok db1)
    (hval : voteValueOk x2 = true) :
    votesUnique db1 ∧
    castBallot users db1 id2 vo ca (some r) t2 x2 n2 false =
      .error .ConflictError := by
  obtain ⟨vu, cu, hfv, hfc, hrv, hrc, hvx, _⟩ :=
    castBallot_ok_elim users db db1 id1 vo ca (some r) t x n op hok
  refine ⟨castBallot_preserves_unique users db db1 id1 vo ca (some r)
    t x n op hu hok, ?_⟩
  obtain ⟨w, hw, hwm⟩ :=
    castBallot_ok_triple users db db1 id1 vo ca r t x n op hok
  have hany : db1.any (fun v =>
      voteKeyConflict v (castRowOf id2 vo ca (some r) t2 x2 n2)) = true := by
    rw [List.any_eq_true]
    refine ⟨w, hw, ?_⟩
    rw [voteKeyConflict_castRow]
    exact hwm
  unfold castBallot
  rw [hfv, hfc]
  simp only [hval, Bool.not_true, Bool.false_eq_true, if_false,
    if_pos hrv, if_pos hrc, hany]
  simp

/-- C1 witness: with one ACTIVE voter and one RUSHEE candidate, a concrete
first ballot for round "Round 1" succeeds, and the repeat insert for the
same triple with the round closed fails with ConflictError. -/
theorem castBallot_triple_unique_witness :
    votesUnique
      [castRowOf 1 1 2 (some "Round 1") VoteType.BID (some 8) none] ∧
    castBallot
      [{ id := 1, supabase_id := 100, email := "v@x.com", role := Role.ACTIVE,
         candidate_stage := none, is_active := true },
       { id := 2, supabase_id := 200, email := "c@x.com", role := Role.RUSHEE,
         candidate_stage := some CandidateStage.FIRST_ROUND,
         is_active := true }]
      [castRowOf 1 1 2 (some "Round 1") VoteType.BID (some 8) none]
      2 1 2 (some "Round 1") VoteType.NO_BID none none false =
      .error .ConflictError :=
  castBallot_triple_unique
    [{ id := 1, supabase_id := 100, email := "v@x.com", role := Role.ACTIVE,
       candidate_stage := none, is_active := true },
     { id := 2, supabase_id := 200, email := "c@x.com", role := Role.RUSHEE,
       candidate_stage := some CandidateStage.FIRST_ROUND,
       is_active := true }]
    [] _ 1 2 1 2 "Round 1" VoteType.BID VoteType.NO_BID (some 8) none
    none none true (fun _ _ _ => by simp [voteTripleCount]) rfl rfl

/-- C2: castBallot succeeds only when the voter's role is ACTIVE or ADMIN
and the candidate's role is RUSHEE; when either condition fails the call
returns AuthorizationError and produces no table state, so no vote row is
created. -/
theorem castBallot_role_gate (users : List UserRow) (db : List VoteRow)
    (newId vo ca : Nat) (round : Option String) (t : VoteType)
    (x : Option Int) (n : Option String) (op : Bool) (vu cu : UserRow)
    (hfv : findUser users vo = some vu) (hfc : findUser users ca = some cu) :
    (∀ db1, castBallot users db newId vo ca round t x n op = .ok db1 →
        (vu.role = Role.ACTIVE ∨ vu.role = Role.ADMIN) ∧
        cu.role = Role.RUSHEE) ∧
    (¬((vu.role = Role.ACTIVE ∨ vu.role = Role.ADMIN) ∧
        cu.role = Role.RUSHEE) →
      castBallot users db newId vo ca round t x n op =
        .error .AuthorizationError) := by
  constructor
  · intro db1 h1
    obtain ⟨vu2, cu2, hfv2, hfc2, hrv, hrc, _⟩ :=
      castBallot_ok_elim users db db1 newId vo ca round t x n op h1
    rw [hfv] at hfv2
    rw [hfc] at hfc2
    rw [Option.some_inj] at hfv2 hfc2
    subst hfv2
    subst hfc2
    exact ⟨hrv, hrc⟩
  · intro hbad
    unfold castBallot
    rw [hfv, hfc]
    simp only []
    by_cases h1 : vu.role = Role.ACTIVE ∨ vu.role = Role.ADMIN
    · have h2 : ¬ cu.role = Role.RUSHEE := fun h => hbad ⟨h1, h⟩
      rw [if_pos h1, if_neg h2]
    · rw [if_neg h1]

/-- C2 witness: a PLEDGE voter attempting a ballot on a RUSHEE candidate is
rejected with AuthorizationError. -/
theorem castBallot_role_gate_witness :
    (∀ db1, castBallot [pledgeVoter, rusheeCandidate]
        [] 5 1 2 (some "Round 1") VoteType.BID none none true = .ok db1 →
        (pledgeVoter.role = Role.ACTIVE ∨ pledgeVoter.role = Role.ADMIN) ∧
        rusheeCandidate.role = Role.RUSHEE) ∧
    (¬((pledgeVoter.role = Role.ACTIVE ∨ pledgeVoter.role = Role.ADMIN) ∧
        rusheeCandidate.role = Role.RUSHEE) →
      castBallot [pledgeVoter, rusheeCandidate]
        [] 5 1 2 (some "Round 1") VoteType.BID none none true =
        .error .AuthorizationError) :=
  castBallot_role_gate [pledgeVoter, rusheeCandidate] [] 5 1 2
    (some "Round 1") VoteType.BID none none true pledgeVoter
    rusheeCandidate rfl rfl

/-- C3: under the votes RLS policies, a caller for whom the admin policy
does not pass can only be returned rows whose voter link resolves to a user
row carrying the caller's auth uid — no read path exposes another voter's
ballot row to a non-admin — and getBallotsForVoter returns exactly the
voter's own ballots. -/
theorem non_admin_reads_only_own (users : List UserRow) (authUid : Nat)
    (db : List VoteRow)
    (hna : adminVotePolicy users authUid = false) :
    (∀ v ∈ visibleVotes users authUid db,
        ∃ u ∈ users, u.supabase_id = authUid ∧ u.id = v.voter_id) ∧
    (∀ voterId v, v ∈ getBallotsForVoter db voterId ↔
        (v ∈ db ∧ v.voter_id = voterId)) := by
  constructor
  · intro v hv
    unfold visibleVotes at hv
    rw [List.mem_filter] at hv
    obtain ⟨hvdb, hvis⟩ := hv
    unfold voteVisible at hvis
    rw [hna, Bool.or_false] at hvis
    unfold ownVotePolicy at hvis
    rw [List.any_eq_true] at hvis
    obtain ⟨u, hu, hcond⟩ := hvis
    simp only [Bool.and_eq_true, beq_iff_eq] at hcond
    exact ⟨u, hu, hcond.1, hcond.2⟩
  · intro voterId v
    unfold getBallotsForVoter
    rw [List.mem_filter]
    simp

/-- C3 witness: the concrete ACTIVE caller is not matched by the admin
policy, so on a table holding another member's ballot every visible row
must link back to the caller, and getBallotsForVoter filters by voter. -/
theorem non_admin_reads_only_own_witness :
    (∀ v ∈ visibleVotes [activeReader] 100 [nullRoundVoteA],
        ∃ u ∈ [activeReader], u.supabase_id = 100 ∧ u.id = v.voter_id) ∧
    (∀ voterId v, v ∈ getBallotsForVoter [nullRoundVoteA] voterId ↔
        (v ∈ [nullRoundVoteA] ∧ v.voter_id = voterId)) :=
  non_admin_reads_only_own [activeReader] 100 [nullRoundVoteA] rfl

/-- C8: deleting a user cascade-deletes the rows it strictly owns (votes as
voter or candidate, feedback as author or candidate, interviews as
interviewer or candidate, attendance as attendee, dues payments as payer),
while rows that reference the user attributionally survive with the
reference cleared (events.created_by, attendance.checked_in_by,
dues_payments.recorded_by); deleting an event clears event_id on votes,
feedback and interviews but cascade-deletes its attendance rows. -/
theorem deletion_policies (db : Db) (uid eid : Nat) :
    (∀ v ∈ (deleteUser db uid).votes,
        v.voter_id ≠ uid ∧ v.candidate_id ≠ uid) ∧
    (∀ f ∈ (deleteUser db uid).feedback,
        f.author_id ≠ uid ∧ f.candidate_id ≠ uid) ∧
    (∀ i ∈ (deleteUser db uid).interviews,
        i.interviewer_id ≠ uid ∧ i.candidate_id ≠ uid) ∧
    (∀ a ∈ (deleteUser db uid).attendance, a.user_id ≠ uid) ∧
    (∀ d ∈ (deleteUser db uid).dues, d.user_id ≠ uid) ∧
    (∀ v ∈ db.votes, v.voter_id ≠ uid → v.candidate_id ≠ uid →
        v ∈ (deleteUser db uid).votes) ∧
    ((deleteUser db uid).events.length = db.events.length) ∧
    (∀ e ∈ (deleteUser db uid).events, e.created_by ≠ some uid) ∧
    (∀ e ∈ db.events, e.created_by ≠ some uid →
        e ∈ (deleteUser db uid).events) ∧
    (∀ a ∈ (deleteUser db uid).attendance, a.checked_in_by ≠ some uid) ∧
    (∀ a ∈ db.attendance, a.user_id ≠ uid →
        ∃ b ∈ (deleteUser db uid).attendance, b.id = a.id ∧
          b.event_id = a.event_id ∧ b.user_id = a.user_id ∧
          b.status = a.status) ∧
    (∀ d ∈ (deleteUser db uid).dues, d.recorded_by ≠ some uid) ∧
    (∀ d ∈ db.dues, d.user_id ≠ uid →
        ∃ c ∈ (deleteUser db uid).dues, c.id = d.id ∧
          c.user_id = d.user_id ∧ c.amount = d.amount ∧
          c.status = d.status) ∧
    ((deleteEvent db eid).votes.length = db.votes.length) ∧
    (∀ v ∈ (deleteEvent db eid).votes, v.event_id ≠ some eid) ∧
    (∀ f ∈ (deleteEvent db eid).feedback, f.event_id ≠ some eid) ∧
    (∀ i ∈ (deleteEvent db eid).interviews, i.event_id ≠ some eid) ∧
    (∀ a ∈ (deleteEvent db eid).attendance, a.event_id ≠ eid) ∧
    (∀ v ∈ db.votes, ∃ w ∈ (deleteEvent db eid).votes, w.id = v.id ∧
        w.voter_id = v.voter_id ∧ w.candidate_id = v.candidate_id ∧
        w.vote_type = v.vote_type) ∧
    ((deleteEvent db eid).feedback.length = db.feedback.length) ∧
    (∀ f ∈ db.feedback, ∃ g ∈ (deleteEvent db eid).feedback, g.id = f.id ∧
        g.author_id = f.author_id ∧ g.candidate_id = f.candidate_id ∧
        g.rating = f.rating ∧ g.comment = f.comment ∧
        g.is_private = f.is_private) ∧
    ((deleteEvent db eid).interviews.length = db.interviews.length) ∧
    (∀ i ∈ db.interviews, ∃ j ∈ (deleteEvent db eid).interviews,
        j.id = i.id ∧ j.interviewer_id = i.interviewer_id ∧
        j.candidate_id = i.candidate_id ∧
        j.overall_rating = i.overall_rating ∧
        j.recommendation = i.recommendation) := by
  refine ⟨?_, ?_, ?_, ?_, ?_, ?_, ?_, ?_, ?_, ?_, ?_, ?_, ?_, ?_, ?_, ?_,
    ?_, ?_, ?_, ?_, ?_, ?_, ?_⟩
  · intro v hv
    simp only [deleteUser, List.mem_filter, Bool.and_eq_true,
      bne_iff_ne] at hv
    exact ⟨hv.2.1, hv.2.2⟩
  · intro f hf
    simp only [deleteUser, List.mem_filter, Bool.and_eq_true,
      bne_iff_ne] at hf
    exact ⟨hf.2.1, hf.2.2⟩
  · intro i hi
    simp only [deleteUser, List.mem_filter, Bool.and_eq_true,
      bne_iff_ne] at hi
    exact ⟨hi.2.1, hi.2.2⟩
  · intro a ha
    simp only [deleteUser, List.mem_map] at ha
    obtain ⟨b, hb, rfl⟩ := ha
    rw [List.mem_filter, bne_iff_ne] at hb
    have hbu := hb.2
    split <;> exact hbu
  · intro d hd
    simp only [deleteUser, List.mem_map] at hd
    obtain ⟨c, hc, rfl⟩ := hd
    rw [List.mem_filter, bne_iff_ne] at hc
    have hcu := hc.2
    split <;> exact hcu
  · intro v hv h1 h2
    simp only [deleteUser, List.mem_filter]
    refine ⟨hv, ?_⟩
    rw [Bool.and_eq_true, bne_iff_ne, bne_iff_ne]
    exact ⟨h1, h2⟩
  · simp only [deleteUser]
    exact List.length_map _ _
  · intro e he
    simp only [deleteUser, List.mem_map] at he
    obtain ⟨e0, he0, rfl⟩ := he
    split
    · simp
    · next hne =>
      intro hc
      exact hne (by rw [hc]; exact beq_self_eq_true _)
  · intro e he hne
    simp only [deleteUser, List.mem_map]
    refine ⟨e, he, ?_⟩
    rw [if_neg ?_]
    rw [beq_iff_eq]
    exact hne
  · intro a ha
    simp only [deleteUser, List.mem_map] at ha
    obtain ⟨b, hb, rfl⟩ := ha
    split
    · simp
    · next hne =>
      intro hc
      exact hne (by rw [hc]; exact beq_self_eq_true _)
  · intro a ha hau
    simp only [deleteUser]
    refine ⟨_, List.mem_map_of_mem _ (List.mem_filter.mpr ⟨ha, ?_⟩), ?_⟩
    · rw [bne_iff_ne]; exact hau
    · split <;> exact ⟨rfl, rfl, rfl, rfl⟩
  · intro d hd
    simp only [deleteUser, List.mem_map] at hd
    obtain ⟨c, hc, rfl⟩ := hd
    split
    · simp
    · next hne =>
      intro hx
      exact hne (by rw [hx]; exact beq_self_eq_true _)
  · intro d hd hdu
    simp only [deleteUser]
    refine ⟨_, List.mem_map_of_mem _ (List.mem_filter.mpr ⟨hd, ?_⟩), ?_⟩
    · rw [bne_iff_ne]; exact hdu
    · split <;> exact ⟨rfl, rfl, rfl, rfl⟩
  · simp only [deleteEvent]
    exact List.length_map _ _
  · intro v hv
    simp only [deleteEvent, List.mem_map] at hv
    obtain ⟨w, hw, rfl⟩ := hv
    split
    · simp
    · next hne =>
      intro hc
      exact hne (by rw [hc]; exact beq_self_eq_true _)
  · intro f hf
    simp only [deleteEvent, List.mem_map] at hf
    obtain ⟨g, hg, rfl⟩ := hf
    split
    · simp
    · next hne =>
      intro hc
      exact hne (by rw [hc]; exact beq_self_eq_true _)
  · intro i hi
    simp only [deleteEvent, List.mem_map] at hi
    obtain ⟨j, hj, rfl⟩ := hi
    split
    · simp
    · next hne =>
      intro hc
      exact hne (by rw [hc]; exact beq_self_eq_true _)
  · intro a ha
    simp only [deleteEvent, List.mem_filter, bne_iff_ne] at ha
    exact ha.2
  · intro v hv
    simp only [deleteEvent]
    refine ⟨_, List.mem_map_of_mem _ hv, ?_⟩
    split <;> exact ⟨rfl, rfl, rfl, rfl⟩
  · simp only [deleteEvent]
    exact List.length_map _ _
  · intro f hf
    simp only [deleteEvent]
    refine ⟨_, List.mem_map_of_mem _ hf, ?_⟩
    split <;> exact ⟨rfl, rfl, rfl, rfl, rfl, rfl⟩
  · simp only [deleteEvent]
    exact List.length_map _ _
  · intro i hi
    simp only [deleteEvent]
    refine ⟨_, List.mem_map_of_mem _ hi, ?_⟩
    split <;> exact ⟨rfl, rfl, rfl, rfl, rfl⟩

end Rush
